import Mathlib

/-
Verification of the display surface and synchronization engine of
ESP32-OLED-RGB (src/oled.c, src/include/oled.h), shallowly embedded in
Lean 4.  The embedding targets the 16-bit colour build
(CONFIG_OLED_BPP == 16), which is the only pixel path actually compiled
in src/oled.c (the <=8-bit branch is "#error Not coded greyscale yet").
Display dimensions (CONFIG_OLED_WIDTH / CONFIG_OLED_HEIGHT) are kept as
explicit parameters W H.

Conventions of the embedding:
 * oled_pos_t (int16_t) coordinates are modelled as Int;
 * uint8_t intensities and char colour tokens are modelled as Nat < 256;
 * the 16-bit frame cells are Nat < 2^16;
 * C arithmetic on promoted int is done in Int, with conversion to
   uint16_t modelled by Int.emod _ 65536, arithmetic right shift of a
   (possibly negative) int by Int.fdiv _ (2^n), and truncating division
   by Int.tdiv;
 * the global mutable module state of oled.c is a structure OledState;
 * functions that may dereference the plane pointer return
   Except Unit OledState, where Except.error () marks the undefined
   behaviour of dereferencing a NULL plane (after the engine disabled
   itself and freed the buffer).
-/

namespace OledRGB

/-! Alignment flag constants from src/include/oled.h. -/

def OLED_T : Nat := 0x01
def OLED_M : Nat := 0x03
def OLED_B : Nat := 0x02
def OLED_V : Nat := 0x08
def OLED_L : Nat := 0x10
def OLED_C : Nat := 0x30
def OLED_R : Nat := 0x20
def OLED_H : Nat := 0x80

/-! Colour constants for the 16-bit build (oled.c lines 85-101). -/

def BLACK : Nat := 0

def ISHIFT : Nat := 4

def R : Nat := 1 <<< 11

def G : Nat := 1 <<< 5

def B : Nat := 1

def RED : Nat := R + R

def GREEN : Nat := G + G + G + G

def BLUE : Nat := B + B

def CYAN : Nat := GREEN + BLUE

def MAGENTA : Nat := RED + BLUE

def YELLOW : Nat := RED + GREEN

def WHITE : Nat := RED + GREEN + BLUE

/-- oled_colour_lookup (oled.c lines 153-194): character token to colour
multiplier; the argument is the char code of the token.  Unrecognized
tokens (including uppercase W) fall through to full-intensity WHITE. -/
def oled_colour_lookup (c : Nat) : Nat :=
  if c = 107 ∨ c = 75 then BLACK
  else if c = 114 then RED >>> 1
  else if c = 69 then RED
  else if c = 103 then GREEN >>> 1
  else if c = 71 then GREEN
  else if c = 98 then BLUE >>> 1
  else if c = 66 then BLUE
  else if c = 99 then CYAN >>> 1
  else if c = 67 then CYAN
  else if c = 109 then MAGENTA >>> 1
  else if c = 77 then MAGENTA
  else if c = 121 then YELLOW >>> 1
  else if c = 89 then YELLOW
  else if c = 119 then WHITE >>> 1
  else if c = 111 ∨ c = 79 then RED + (GREEN >>> 1)
  else WHITE

/-- The global mutable module state of oled.c: the plane buffer `oled`
(none when the pointer is NULL), the dirty flag `oled_changed`, the
contrast-pending flag `oled_update`, `oled_contrast`, and the drawing
state x, y, a, f, b, f_mul, b_mul. -/
structure OledState where
  plane : Option (List Nat)
  changed : Bool
  update : Bool
  contrast : Nat
  x : Int
  y : Int
  a : Nat
  f : Nat
  b : Nat
  f_mul : Nat
  b_mul : Nat
deriving Repr, DecidableEq

/-- State after oled_start has allocated and zeroed the plane buffer
(oled.c lines 603-606) with the static initializers of the module
globals (oled_changed = 1, oled_update = 0, oled_contrast = 255,
x = y = 0, a = 0, f = b = 0, f_mul = b_mul = 0). -/
def initState (W H : Nat) : OledState :=
  { plane := some (List.replicate (W * H) 0)
    changed := true
    update := false
    contrast := 255
    x := 0
    y := 0
    a := 0
    f := 0
    b := 0
    f_mul := 0
    b_mul := 0 }

/-- Arithmetic right shift of a C int, as gcc implements `v >> n` on a
possibly negative value: floor division by 2^n. -/
def sar (v : Int) (n : Nat) : Int :=
  Int.fdiv v (2 ^ n)

/-- Conversion of a C int expression result to uint16_t: reduction
modulo 2^16 (two's complement). -/
def cToU16 (v : Int) : Nat :=
  (Int.emod v 65536).toNat

/-- ntohs on the little-endian ESP32: swap the two bytes of a uint16. -/
def ntohs (v : Nat) : Nat :=
  (v % 256) * 256 + (v / 256) % 256

/-- The cell value computed by the 16-bit branch of oled_pixel
(oled.c line 248): `ntohs(f * (i >> ISHIFT) + b * ((~i) >> ISHIFT))`.
The operands f, b and i are promoted to int; `~i` on the promoted
uint8_t value i is -(i+1), and its right shift is arithmetic. -/
def pixel_cell (fv bv : Nat) (i : Nat) : Nat :=
  ntohs (cToU16 ((fv : Int) * ((i >>> ISHIFT : Nat) : Int)
    + (bv : Int) * sar (-(i : Int) - 1) ISHIFT))

/-- oled_pixel (oled.c lines 240-250): bounds check, then store the
composed cell at (y*W)+x.  The C code dereferences the plane pointer
unconditionally after the bounds check; a NULL plane is the crash case,
modelled as Except.error. -/
def oled_pixel (W H : Nat) (s : OledState) (px py : Int) (i : Nat) :
    Except Unit OledState :=
  if px < 0 ∨ px ≥ (W : Int) ∨ py < 0 ∨ py ≥ (H : Int) then
    Except.ok s
  else
    match s.plane with
    | none => Except.error ()
    | some cells =>
        Except.ok { s with
          plane := some (cells.set (py.toNat * W + px.toNat)
            (pixel_cell s.f s.b i)) }

/-- oled_pos (oled.c lines 145-151): set cursor and alignment; a zero
alignment argument defaults to OLED_L | OLED_T | OLED_H. -/
def oled_pos (s : OledState) (nx ny : Int) (na : Nat) : OledState :=
  { s with
    x := nx
    y := ny
    a := if na ≠ 0 then na else OLED_L ||| OLED_T ||| OLED_H }

/-- oled_colour (oled.c lines 196-200): set foreground token and cache
its palette multiplier. -/
def oled_colour (s : OledState) (c : Nat) : OledState :=
  { s with f := c, f_mul := oled_colour_lookup c }

/-- oled_background (oled.c lines 202-206): set background token and
cache its palette multiplier. -/
def oled_background (s : OledState) (c : Nat) : OledState :=
  { s with b := c, b_mul := oled_colour_lookup c }

/-- oled_lock (oled.c lines 640-650): after taking the mutex, preset the
drawing state: background 'k' (107), foreground 'w' (119), position
(0,0) with alignment OLED_L | OLED_T | OLED_H.  Only the state reset is
modelled; the mutex itself is outside the embedding. -/
def oled_lock (s : OledState) : OledState :=
  oled_pos (oled_colour (oled_background s 107) 119) 0 0
    (OLED_L ||| OLED_T ||| OLED_H)

/-- oled_draw (oled.c lines 252-283): compute the top-left corner (l,t)
of a w-by-h box anchored at the cursor according to the alignment bits,
and advance the cursor by the movement bits.  Returns the state with the
moved cursor together with (l, t). -/
def oled_draw (s : OledState) (w h wm hm : Int) : OledState × Int × Int :=
  let l : Int :=
    if s.a &&& OLED_C = OLED_C then s.x - Int.tdiv (w - 1) 2
    else if s.a &&& OLED_R ≠ 0 then s.x - (w - 1)
    else s.x
  let t : Int :=
    if s.a &&& OLED_M = OLED_M then s.y - Int.tdiv (h - 1) 2
    else if s.a &&& OLED_B ≠ 0 then s.y - (h - 1)
    else s.y
  let x1 : Int :=
    if s.a &&& OLED_H ≠ 0 then
      let xa := if s.a &&& OLED_L ≠ 0 then s.x + (w + wm) else s.x
      if s.a &&& OLED_R ≠ 0 then xa - (w + wm) else xa
    else s.x
  let y1 : Int :=
    if s.a &&& OLED_V ≠ 0 then
      let ya := if s.a &&& OLED_T ≠ 0 then s.y + (h + hm) else s.y
      if s.a &&& OLED_B ≠ 0 then ya - (h + hm) else ya
    else s.y
  ({ s with x := x1, y := y1 }, l, t)

/-- oled_fill (oled.c lines 343-352): placement via oled_draw, then set
every pixel of the w-by-h rectangle.  Note: no `!oled` guard. -/
def oled_fill (W H : Nat) (s : OledState) (w h : Int) (i : Nat) :
    Except Unit OledState :=
  let d := oled_draw s w h 0 0
  (List.range (Int.toNat h)).foldlM (fun st row =>
    (List.range (Int.toNat w)).foldlM (fun st2 col =>
      oled_pixel W H st2 (d.2.1 + (col : Int)) (d.2.2 + (row : Int)) i) st)
    d.1

/-- oled_clear (oled.c lines 305-313): guarded by `if (!oled) return;`,
then oled_pixel on every coordinate. -/
def oled_clear (W H : Nat) (s : OledState) (i : Nat) :
    Except Unit OledState :=
  if s.plane = none then Except.ok s
  else
    (List.range H).foldlM (fun st yy =>
      (List.range W).foldlM (fun st2 xx =>
        oled_pixel W H st2 (xx : Int) (yy : Int) i) st) s

/-- oled_set_contrast (oled.c lines 315-323): guarded by
`if (!oled) return;`, then store the contrast and raise the pending and
dirty flags. -/
def oled_set_contrast (s : OledState) (c : Nat) : OledState :=
  if s.plane = none then s
  else { s with contrast := c, update := true, changed := true }

/-- Extract the state from a non-crashing call, with a default for the
crash case. -/
def okOr (d : OledState) : Except Unit OledState → OledState
  | Except.ok s => s
  | Except.error _ => d

/-- Number of entries of the font table `fonts` in oled.c (lines 52-83):
six entries, each either a font or NULL depending on configuration, so
the valid indices are 0..5. -/
def fontsLen : Nat := 6

/-- The size clamp of oled_text (oled.c lines 386-387):
`if (size > sizeof(fonts)/sizeof(*fonts)) size = sizeof(fonts)/sizeof(*fonts);`
applied to the (already sign-normalised, non-negative) size. -/
def clampFontSize (size : Nat) : Nat :=
  if size > fontsLen then fontsLen else size

/-- The nested function cwidth of oled_text (oled.c lines 395-407):
width as printed of character code c (0..255) for the effective size and
font cell width fontw.  High-bit characters are zero width; for a
non-zero size, control characters are a fixed move of c*size pixels and
a colon or full stop is size*2 pixels wide; everything else is the font
cell width. -/
def cwidth (size : Nat) (fontw : Int) (c : Nat) : Int :=
  if c &&& 0x80 ≠ 0 then 0
  else if size ≠ 0 ∧ c < 32 then (c * size : Nat)
  else if size ≠ 0 ∧ (c = 58 ∨ c = 46) then (size * 2 : Nat)
  else fontw

/-- Font cell pixel width for a size, oled.c line 390:
`int fontw = (size ? 6 * size : 4);`. -/
def fontWidth (size : Nat) : Int :=
  if size ≠ 0 then 6 * (size : Int) else 4

/-- The total-text-width computation of oled_text (oled.c lines 393-422):
sum cwidth over the characters, then, if non-zero, subtract the trailing
margin `(size ? : 1)`. -/
def textWidth (size : Nat) (text : List Nat) : Int :=
  let w := text.foldl (fun acc c => acc + cwidth size (fontWidth size) c) 0
  if w ≠ 0 then w - (if size ≠ 0 then (size : Int) else 1) else w

/-- One iteration of the steady-state update loop of oled_task
(oled.c lines 565-584).  If the dirty flag is clear the task only
sleeps.  Otherwise it locks (which resets the drawing state), clears the
dirty flag, transmits the window commands and the full plane — the
esp_err_t results of oled_cmd2/oled_cmd/oled_data are discarded, so the
parameter txFail, recording whether that transmission failed, has no
influence on the resulting state — and, if the contrast-pending flag is
set, clears it and sends the contrast command. -/
def oled_task_iteration (s : OledState) (txFail : Bool) : OledState :=
  if s.changed = false then s
  else
    let s1 := { oled_lock s with changed := false }
    if s1.update then { s1 with update := false } else s1

/-- Stated from the specification's words (spec 4.2), for comparison
with the code's oled_pixel: the stored cell is
`foregroundMultiplier * (intensity >> shift) +
backgroundMultiplier * ((~intensity) >> shift)` with shift = ISHIFT = 4,
where the multipliers are the palette-lookup values of the current
foreground and background tokens, stored in transport byte order.  The
arithmetic is read with the same C int semantics as the code. -/
def spec_stored_cell (fg bg : Nat) (i : Nat) : Nat :=
  ntohs (cToU16 ((oled_colour_lookup fg : Int) * ((i >>> ISHIFT : Nat) : Int)
    + (oled_colour_lookup bg : Int) * sar (-(i : Int) - 1) ISHIFT))

/-- State on a 4-by-4 test plane after oled_lock and then a clearing of
the dirty flag by the sync task. -/
def syncClearedState : OledState :=
  { oled_lock (initState 4 4) with changed := false }

/-- State on a 4-by-4 test plane after the engine has permanently
disabled itself (the plane buffer freed, pointer NULL), inside a
subsequent oled_lock critical section. -/
def disabledState : OledState :=
  { oled_lock (initState 4 4) with plane := none }

/-- State positioned at (50,50) with centre plus middle alignment. -/
def state50 : OledState :=
  oled_pos (oled_lock (initState 4 4)) 50 50 (OLED_C ||| OLED_M)

/-- State positioned at (50,50) with centre plus middle alignment and
both movement flags. -/
def stateCMHV : OledState :=
  oled_pos (oled_lock (initState 4 4)) 50 50
    (OLED_C ||| OLED_M ||| OLED_H ||| OLED_V)

/-- C1: the claim states that the stored cell is composed from the
palette multipliers of the current foreground and background tokens.
The code instead multiplies by the raw token characters f and b
(oled.c line 248); the cached multipliers f_mul and b_mul are computed
by oled_colour / oled_background but never read.  At the default
colours after oled_lock (f = 'w' = 119, b = 'k' = 107) and intensity
255, the in-bounds write at (0,0) stores 18688, while the claim's
formula with the palette multipliers (lookup 'w' = 2113,
lookup 'k' = 0) yields 53115. -/
theorem c1_pixel_uses_token_not_multiplier :
    (okOr (initState 4 4)
        (oled_pixel 4 4 (oled_lock (initState 4 4)) 0 0 255)).plane
      = some ((List.replicate 16 0).set 0 (pixel_cell 119 107 255))
    ∧ pixel_cell 119 107 255 = 18688
    ∧ spec_stored_cell 119 107 255 = 53115
    ∧ pixel_cell 119 107 255 ≠ spec_stored_cell 119 107 255 := by
  decide

/-- C2: oled_pixel never modifies the dirty flag: after every call the
flag is exactly what it was before (first conjunct, for all inputs and
also for out-of-bounds or crashing calls).  In particular an in-bounds
write that does change the stored cell — here cell (0,0) changing from
0 to 18688 after the sync task has cleared the flag — leaves the dirty
flag clear, contradicting the claim that a changing write always sets
it. -/
theorem c2_pixel_write_never_sets_dirty :
    (∀ (W H : Nat) (s : OledState) (px py : Int) (i : Nat),
      (okOr s (oled_pixel W H s px py i)).changed = s.changed)
    ∧ (okOr syncClearedState (oled_pixel 4 4 syncClearedState 0 0 255)).changed
        = false
    ∧ (okOr syncClearedState (oled_pixel 4 4 syncClearedState 0 0 255)).plane
        ≠ syncClearedState.plane := by
  refine ⟨?_, by decide, by decide⟩
  intro W H s px py i
  unfold oled_pixel
  split
  · rfl
  · cases hp : s.plane <;> rfl

/-- C3: after the engine has disabled itself (plane freed and NULL),
oled_fill is not a silent no-op: oled_draw still moves the cursor, and
the first in-bounds oled_pixel dereferences the NULL plane — the crash
case of the model.  This contradicts the claim for oled_fill (likewise
oled_box and oled_icon16, which also lack the `!oled` guard, while
oled_clear, oled_text and oled_set_contrast do return early). -/
theorem c3_fill_after_disable_crashes :
    oled_fill 4 4 disabledState 1 1 255 = Except.error ()
    ∧ (oled_draw disabledState 1 1 0 0).1.x ≠ disabledState.x := by
  refine ⟨rfl, by decide⟩

/-- C4 counterexample: with the dirty flag set and a failing
transmission, one Running-loop iteration leaves the dirty flag cleared;
it is not re-set as the claim states, so the frame is not retried. -/
theorem c4_counterexample :
    ¬ ((oled_task_iteration (initState 4 4) true).changed = true) := by
  decide

/-- C4 amended: the Running loop of oled_task discards the transmission
result entirely: an iteration with a failing transmission produces
exactly the state of a successful one; in particular a dirty frame
leaves the iteration with the dirty flag cleared, so the same frame is
not retried until some later call raises the flag again, and no failure
is logged.  The failure is indeed never fatal: the loop continues with
a well-defined state either way. -/
theorem c4_tx_failure_ignored (s : OledState) (fail : Bool) :
    oled_task_iteration s fail = oled_task_iteration s false
    ∧ (s.changed = true → (oled_task_iteration s fail).changed = false) := by
  refine ⟨rfl, fun hc => ?_⟩
  unfold oled_task_iteration
  rw [hc]
  simp only [Bool.true_eq_false, if_false]
  split <;> rfl

/-- C4 witness: the amended theorem applied to the freshly initialised
(dirty) state with a failing transmission. -/
theorem c4_witness :
    (initState 4 4).changed = true
    ∧ (oled_task_iteration (initState 4 4) true).changed = false :=
  ⟨rfl, (c4_tx_failure_ignored (initState 4 4) true).2 rfl⟩

/-- C5: for every coordinate outside the `[0,W) x [0,H)` rectangle,
oled_pixel is a silent no-op: it returns the state unchanged, mutates
nothing and never reaches the plane dereference (so it cannot crash,
even on a disabled engine), for every intensity. -/
theorem c5_oob_pixel_noop (W H : Nat) (s : OledState) (px py : Int)
    (i : Nat)
    (hout : ¬ (0 ≤ px ∧ px < (W : Int) ∧ 0 ≤ py ∧ py < (H : Int))) :
    oled_pixel W H s px py i = Except.ok s := by
  unfold oled_pixel
  rw [if_pos (by omega)]

/-- C5 witness: the out-of-bounds write at (-1, 0) on the 128-by-128
display leaves the initial state untouched. -/
theorem c5_witness :
    ¬ (0 ≤ (-1 : Int) ∧ (-1 : Int) < ((128 : Nat) : Int)
        ∧ 0 ≤ (0 : Int) ∧ (0 : Int) < ((128 : Nat) : Int))
    ∧ oled_pixel 128 128 (initState 128 128) (-1) 0 255
        = Except.ok (initState 128 128) :=
  ⟨by decide,
   c5_oob_pixel_noop 128 128 (initState 128 128) (-1) 0 255 (by decide)⟩

/-- C6: placement computed by oled_draw: horizontally, with both centre
bits set the top-left x is cursor.x - (w-1)/2 (truncating division),
with the right bit set (centre not fully set) it is cursor.x - (w-1),
otherwise cursor.x; vertically analogous with middle/bottom/top and h. -/
theorem c6_draw_placement (s : OledState) (bw bh wm hm : Int) :
    (s.a &&& OLED_C = OLED_C →
      (oled_draw s bw bh wm hm).2.1 = s.x - Int.tdiv (bw - 1) 2)
    ∧ (s.a &&& OLED_C ≠ OLED_C → s.a &&& OLED_R ≠ 0 →
      (oled_draw s bw bh wm hm).2.1 = s.x - (bw - 1))
    ∧ (s.a &&& OLED_C ≠ OLED_C → s.a &&& OLED_R = 0 →
      (oled_draw s bw bh wm hm).2.1 = s.x)
    ∧ (s.a &&& OLED_M = OLED_M →
      (oled_draw s bw bh wm hm).2.2 = s.y - Int.tdiv (bh - 1) 2)
    ∧ (s.a &&& OLED_M ≠ OLED_M → s.a &&& OLED_B ≠ 0 →
      (oled_draw s bw bh wm hm).2.2 = s.y - (bh - 1))
    ∧ (s.a &&& OLED_M ≠ OLED_M → s.a &&& OLED_B = 0 →
      (oled_draw s bw bh wm hm).2.2 = s.y) := by
  refine ⟨fun h1 => ?_, fun h1 h2 => ?_, fun h1 h2 => ?_,
    fun h1 => ?_, fun h1 h2 => ?_, fun h1 h2 => ?_⟩ <;>
    simp [oled_draw, h1]
  · simp [h2]
  · simp [h2]
  · simp [h2]
  · simp [h2]

/-- C6 witness: oled_pos(50, 50, centre plus middle) followed by the
placement of an 11-by-7 box (as done by oled_fill(11, 7, i), which
calls oled_draw with these arguments) puts the top-left at (45, 47). -/
theorem c6_witness :
    (oled_draw state50 11 7 0 0).2.1 = 45
    ∧ (oled_draw state50 11 7 0 0).2.2 = 47 :=
  ⟨((c6_draw_placement state50 11 7 0 0).1 (by decide)).trans (by decide),
   ((c6_draw_placement state50 11 7 0 0).2.2.2.1 (by decide)).trans
     (by decide)⟩

/-- C7 counterexample: at size 2, the two-character string "88"
(character code 56 twice) measures 22 pixels, not the claimed
2 * fontCellWidth(2) - 1 = 23: the code subtracts the margin
`(size ? : 1)`, not one pixel. -/
theorem c7_counterexample :
    ¬ (textWidth 2 [56, 56] = 2 * 12 - 1) := by
  decide

/-- C7 amended: the total width is the sum of the per-character widths
minus one trailing margin of `size` pixels (one pixel only when
size = 0): for size 2 the string "88" measures
2 * fontCellWidth(2) - 2 = 22 pixels. -/
theorem c7_text_width_margin :
    textWidth 2 [56, 56]
      = cwidth 2 (fontWidth 2) 56 + cwidth 2 (fontWidth 2) 56 - 2
    ∧ textWidth 2 [56, 56] = 22 := by
  decide

/-- C8: the clamp in oled_text uses `size > 6` and clamps to 6, the
number of entries of the font table, not to the largest valid index 5:
for the size argument 7 the clamped value equals fontsLen and is not a
valid index of the 6-entry table, so the subsequent fonts[size] access
reads one entry past the end of the array. -/
theorem c8_clamp_out_of_bounds :
    clampFontSize 7 = fontsLen ∧ ¬ (clampFontSize 7 < fontsLen) := by
  decide

/-- C9: oled_lock resets the drawing state to the canonical default,
whatever the prior state: cursor (0,0), alignment left plus top with
horizontal movement, foreground token 'w' (white) and background token
'k' (black), with the matching cached palette multipliers. -/
theorem c9_lock_resets_state (s : OledState) :
    (oled_lock s).x = 0
    ∧ (oled_lock s).y = 0
    ∧ (oled_lock s).a = (OLED_L ||| OLED_T ||| OLED_H)
    ∧ (oled_lock s).f = 119
    ∧ (oled_lock s).b = 107
    ∧ (oled_lock s).f_mul = oled_colour_lookup 119
    ∧ (oled_lock s).b_mul = oled_colour_lookup 107 :=
  ⟨rfl, rfl, rfl, rfl, rfl, rfl, rfl⟩

/-- C10: when both horizontal alignment bits are set (centre) together
with the horizontal-move flag, the left-flag advance by w+wm and the
right-flag retreat by w+wm cancel, so oled_draw leaves cursor x exactly
unchanged; analogously middle vertical alignment with the vertical-move
flag leaves cursor y unchanged. -/
theorem c10_centre_move_cancels (s : OledState) (bw bh wm hm : Int) :
    (s.a &&& OLED_L ≠ 0 → s.a &&& OLED_R ≠ 0 → s.a &&& OLED_H ≠ 0 →
      (oled_draw s bw bh wm hm).1.x = s.x)
    ∧ (s.a &&& OLED_T ≠ 0 → s.a &&& OLED_B ≠ 0 → s.a &&& OLED_V ≠ 0 →
      (oled_draw s bw bh wm hm).1.y = s.y) := by
  constructor
  · intro hL hR hH
    simp [oled_draw, hL, hR, hH]
  · intro hT hB hV
    simp [oled_draw, hT, hB, hV]

/-- C10 witness: at (50,50) with centre, middle and both move flags,
drawing an 11-by-7 box with margins 3 and 2 leaves the cursor at
(50,50). -/
theorem c10_witness :
    (oled_draw stateCMHV 11 7 3 2).1.x = 50
    ∧ (oled_draw stateCMHV 11 7 3 2).1.y = 50 :=
  ⟨((c10_centre_move_cancels stateCMHV 11 7 3 2).1 (by decide) (by decide)
      (by decide)).trans (by decide),
   ((c10_centre_move_cancels stateCMHV 11 7 3 2).2 (by decide) (by decide)
      (by decide)).trans (by decide)⟩

end OledRGB
